import Mathlib

/-!
Verification of the tax-planner core: the numeric parsing utility
(src/utils/formatting, re-exported among the repository sources) and the
four-scenario tax computation of the TaxPlanner2026 component.

JavaScript number arithmetic is modelled over the rationals: every numeric
literal appearing in the source (0.06, 0.15, 0.08, 0.20, 0.05) denotes the
exact rational value, and addition, multiplication, Math.max and the
comparison operators are the exact rational operations.  NaN is modelled
as parse failure (Option.none); parseNum replaces it by 0 before it enters
any arithmetic, so the arithmetic itself never meets a non-number, and the
codomain of parseNum is an honest rational.

The string-to-number conversion is split into a syntactic stage
(toNumberParts, which recognises the decimal literal grammar and returns
sign, digit values and exponent) and a valuation (sciVal) assigning the
exact rational value; their composition toNumber models the ECMAScript
Number function on the whitespace-free strings parseNum feeds it.
-/

namespace TaxPlanner

/-- Argument type of parseNum: string, number, null or undefined. -/
inductive JSInput where
  | str (s : String)
  | num (q : ℚ)
  | null
  | undef
deriving DecidableEq

/-- Characters matched by the source's stripping regex: the JavaScript
whitespace class together with the explicitly listed no-break space
(which the whitespace class contains as well). -/
def isWhitespaceChar (c : Char) : Bool :=
  c == ' ' || c == '\t' || c == '\n' || c == '\r' ||
    c.toNat == 0x0B || c.toNat == 0x0C || c.toNat == 0xA0 ||
    c.toNat == 0x1680 ||
    (decide (0x2000 ≤ c.toNat) && decide (c.toNat ≤ 0x200A)) ||
    c.toNat == 0x2028 || c.toNat == 0x2029 || c.toNat == 0x202F ||
    c.toNat == 0x205F || c.toNat == 0x3000 || c.toNat == 0xFEFF

/-- String replace with the plain-string pattern consisting of one comma:
only the first occurrence is replaced by a decimal point. -/
def replaceFirstComma : List Char → List Char
  | [] => []
  | c :: rest => if c = ',' then '.' :: rest else c :: replaceFirstComma rest

/-- Value of a run of decimal digits read left to right. -/
def digitsToNat (l : List Char) : ℕ :=
  l.foldl (fun a c => 10 * a + (c.toNat - 48)) 0

/-- Syntactic description of a recognised decimal literal: sign, value of
the integer digits, value and length of the fractional digits, and the
decimal exponent. -/
structure NumParts where
  neg : Bool
  intVal : ℕ
  fracVal : ℕ
  fracLen : ℕ
  exp10 : ℤ
deriving DecidableEq

/-- The exact rational value described by a NumParts record. -/
def sciVal (p : NumParts) : ℚ :=
  (cond p.neg (-1) 1) * ((p.intVal : ℚ) + (p.fracVal : ℚ) / (10 : ℚ) ^ p.fracLen) *
    (10 : ℚ) ^ p.exp10

/-- Exponent part of a decimal literal, after the letter e: an optional
sign followed by a non-empty run of digits. -/
def parseExpPart (l : List Char) : Option ℤ :=
  match l with
  | '+' :: body =>
    if body ≠ [] ∧ body.all Char.isDigit then some (digitsToNat body) else none
  | '-' :: body =>
    if body ≠ [] ∧ body.all Char.isDigit then some (-(digitsToNat body : ℤ)) else none
  | body =>
    if body ≠ [] ∧ body.all Char.isDigit then some (digitsToNat body) else none

/-- Finish an unsigned decimal literal: after the digit parts, the
remainder must be empty or an exponent marker followed by a well-formed
exponent. -/
def finishDec (intPart fracPart rest : List Char) : Option NumParts :=
  match rest with
  | [] => some ⟨false, digitsToNat intPart, digitsToNat fracPart, fracPart.length, 0⟩
  | e :: expPart =>
    if e = 'e' ∨ e = 'E' then
      match parseExpPart expPart with
      | some z => some ⟨false, digitsToNat intPart, digitsToNat fracPart, fracPart.length, z⟩
      | none => none
    else none

/-- After the integer-digit prefix has been split off: an optional point
with fractional digits, requiring at least one digit overall. -/
def afterIntPart (intPart : List Char) : List Char → Option NumParts
  | '.' :: r2 =>
    if intPart = [] ∧ r2.takeWhile Char.isDigit = [] then none
    else finishDec intPart (r2.takeWhile Char.isDigit) (r2.dropWhile Char.isDigit)
  | r1 => if intPart = [] then none else finishDec intPart [] r1

/-- Unsigned decimal literal. -/
def parseUnsignedParts (l : List Char) : Option NumParts :=
  afterIntPart (l.takeWhile Char.isDigit) (l.dropWhile Char.isDigit)

/-- Syntactic stage of the ECMAScript string-to-number conversion: an
optional sign followed by an unsigned decimal literal; the empty string
denotes 0.  Out of scope of this finite rational model, and mapped to
none like any other unrecognised input: the non-finite literals Infinity
and -Infinity, and the non-decimal radix prefixes 0x, 0o, 0b. -/
def toNumberParts (l : List Char) : Option NumParts :=
  match l with
  | [] => some ⟨false, 0, 0, 0, 0⟩
  | '+' :: body => parseUnsignedParts body
  | '-' :: body =>
    (parseUnsignedParts body).map (fun p => ⟨true, p.intVal, p.fracVal, p.fracLen, p.exp10⟩)
  | _ => parseUnsignedParts l

/-- ECMAScript conversion of a whitespace-free string to a number (the
Number function).  none stands for NaN. -/
def toNumber (l : List Char) : Option ℚ :=
  (toNumberParts l).map sciVal

/-- The cleaning pipeline applied by parseNum to the character list of the
input string: strip every whitespace character globally, then replace the
first comma (if any) by a point. -/
def cleanse (l : List Char) : List Char :=
  replaceFirstComma (l.filter (fun c => !isWhitespaceChar c))

/-- parseNum from the formatting utility.  Undefined, null and the empty
string give 0; a number input is stringified and re-converted, which is
the identity on the finite numbers this rational model covers; a string is
cleaned and converted, with conversion failure (NaN) giving 0 — the getD
models the isNaN ternary. -/
def parseNum : JSInput → ℚ
  | .undef => 0
  | .null => 0
  | .num q => q
  | .str s =>
    if s = "" then 0
    else (toNumber (cleanse s.data)).getD 0

/-- The nine controlled input strings of the TaxPlanner2026 component. -/
structure Inputs where
  revTrainings : String
  revCamps : String
  revRoyalty : String
  revGoods : String
  usnProfitExpenses : String
  ausnProfitExpenses : String
  prevYearRevenue : String
  vatThreshold : String
  psnPatentCost : String
deriving DecidableEq

/-- The 5 percent VAT rate constant of the component. -/
def VAT5 : ℚ := 0.05

/-- The record produced by the totals aggregation. -/
structure Totals where
  trainings : ℚ
  camps : ℚ
  royalty : ℚ
  goods : ℚ
  sport : ℚ
  taxable : ℚ
  total : ℚ
deriving DecidableEq

/-- The totals aggregation of the component. -/
def totals (i : Inputs) : Totals :=
  let trainings := parseNum (.str i.revTrainings)
  let camps := parseNum (.str i.revCamps)
  let royalty := parseNum (.str i.revRoyalty)
  let goods := parseNum (.str i.revGoods)
  let sport := trainings + camps
  let taxable := royalty + goods
  let total := sport + taxable
  ⟨trainings, camps, royalty, goods, sport, taxable, total⟩

/-- The VAT-payer flag: strictly greater than the threshold. -/
def isVatPayer (i : Inputs) : Bool :=
  decide (parseNum (.str i.prevYearRevenue) > parseNum (.str i.vatThreshold))

/-- A computed scenario: key, display label, component breakdown (an
association list mirroring the source's object literal) and total tax. -/
structure Scenario where
  key : String
  label : String
  components : List (String × ℚ)
  totalTax : ℚ
deriving DecidableEq

/-- Scenario 1: PSN (sport) plus USN 6 percent plus VAT 5 percent when
applicable. -/
def usn6 (i : Inputs) : Scenario :=
  let usnTax := (totals i).taxable * 0.06
  let vat := if isVatPayer i then (totals i).taxable * VAT5 else 0
  { key := "usn6"
    label := "ПСН (спорт) + УСН 6% + НДС 5%"
    components :=
      [("Стоимость патента", parseNum (.str i.psnPatentCost)), ("УСН 6%", usnTax), ("НДС 5%", vat)]
    totalTax := parseNum (.str i.psnPatentCost) + usnTax + vat }

/-- The floored profit base of scenario 2: Math.max of 0 and taxable
revenue minus the parsed USN expenses. -/
def usn15Base (i : Inputs) : ℚ :=
  max 0 ((totals i).taxable - parseNum (.str i.usnProfitExpenses))

/-- Scenario 2: PSN (sport) plus USN 15 percent on floored profit plus
VAT 5 percent when applicable. -/
def usn15 (i : Inputs) : Scenario :=
  let usnTax := usn15Base i * 0.15
  let vat := if isVatPayer i then (totals i).taxable * VAT5 else 0
  { key := "usn15"
    label := "ПСН (спорт) + УСН 15% + НДС 5%"
    components :=
      [("Стоимость патента", parseNum (.str i.psnPatentCost)), ("УСН 15%", usnTax), ("НДС 5%", vat)]
    totalTax := parseNum (.str i.psnPatentCost) + usnTax + vat }

/-- Scenario 3: everything on AUSN 8 percent of total revenue. -/
def ausn8 (i : Inputs) : Scenario :=
  let tax := (totals i).total * 0.08
  { key := "ausn8"
    label := "Всё на АУСН 8% (доходы)"
    components := [("АУСН 8%", tax)]
    totalTax := tax }

/-- The floored profit base of scenario 4: Math.max of 0 and total revenue
minus the parsed AUSN expenses. -/
def ausn20Base (i : Inputs) : ℚ :=
  max 0 ((totals i).total - parseNum (.str i.ausnProfitExpenses))

/-- Scenario 4: everything on AUSN 20 percent of floored total profit. -/
def ausn20 (i : Inputs) : Scenario :=
  let tax := ausn20Base i * 0.20
  { key := "ausn20"
    label := "Всё на АУСН 20% (прибыль)"
    components := [("АУСН 20%", tax)]
    totalTax := tax }

/-- The scenario array, in source order. -/
def scenarios (i : Inputs) : List Scenario :=
  [usn6 i, usn15 i, ausn8 i, ausn20 i]

/-- JavaScript Array reduce without an initial value: the first element
seeds a left fold over the remainder; the empty array raises (none). -/
def jsReduce {α : Type} (f : α → α → α) : List α → Option α
  | [] => none
  | x :: xs => some (xs.foldl f x)

/-- The reducer used for best: keep the accumulator exactly when its
totalTax is strictly smaller, otherwise take the second argument. -/
def pickMin (a b : Scenario) : Scenario :=
  if a.totalTax < b.totalTax then a else b

/-- The best scenario.  The scenario array always has four elements, so
the reduce never hits the empty case and the getD default is unreachable. -/
def best (i : Inputs) : Scenario :=
  (jsReduce pickMin (scenarios i)).getD (usn6 i)

/-- Math.round on a finite value: round half toward positive infinity. -/
def jsRound (q : ℚ) : ℤ := ⌊q + 1 / 2⌋

/-- The chart data: labels paired with rounded totals; rounding happens
only here, never in the totals used for selection. -/
def chartData (i : Inputs) : List (String × ℤ) :=
  (scenarios i).map (fun s => (s.label, jsRound s.totalTax))

/-- The component's initial useState values. -/
def defaultInputs : Inputs :=
  { revTrainings := "8000000"
    revCamps := "0"
    revRoyalty := "6000000"
    revGoods := "1000000"
    usnProfitExpenses := "1200000"
    ausnProfitExpenses := "1200000"
    prevYearRevenue := "15000000"
    vatThreshold := "10000000"
    psnPatentCost := "200000" }

/-- All nine fields set to the string 0: every parsed amount is zero, so
all four scenarios carry the same total tax. -/
def zeroInputs : Inputs :=
  { revTrainings := "0"
    revCamps := "0"
    revRoyalty := "0"
    revGoods := "0"
    usnProfitExpenses := "0"
    ausnProfitExpenses := "0"
    prevYearRevenue := "0"
    vatThreshold := "0"
    psnPatentCost := "0" }

/-- Default inputs with both expense fields raised above every revenue
aggregate. -/
def excessInputs : Inputs :=
  { defaultInputs with usnProfitExpenses := "99000000", ausnProfitExpenses := "99000000" }

/-- Default inputs with the previous-year revenue exactly at the VAT
threshold. -/
def eqThresholdInputs : Inputs :=
  { defaultInputs with prevYearRevenue := "10000000" }

/-- Zero inputs except for a negative royalty revenue string. -/
def negRoyaltyInputs : Inputs :=
  { zeroInputs with revRoyalty := "-1000000" }

theorem parseNum_str_eval (s : String) (p : NumParts)
    (h : toNumberParts (cleanse s.data) = some p) (hs : ¬ s = "") :
    parseNum (.str s) = sciVal p := by
  simp [parseNum, hs, toNumber, h]

theorem parseNum_str_none (s : String)
    (h : toNumberParts (cleanse s.data) = none) :
    parseNum (.str s) = 0 := by
  by_cases hs : s = ""
  · simp [parseNum, hs]
  · simp [parseNum, hs, toNumber, h]

theorem sciVal_nat (n : ℕ) : sciVal ⟨false, n, 0, 0, 0⟩ = n := by
  simp [sciVal]

theorem sciVal_negNat (n : ℕ) : sciVal ⟨true, n, 0, 0, 0⟩ = -(n : ℚ) := by
  simp [sciVal]

theorem pn_0 : parseNum (.str "0") = 0 := by
  rw [parseNum_str_eval "0" ⟨false, 0, 0, 0, 0⟩ (by decide) (by decide), sciVal_nat]
  norm_num

theorem pn_8000000 : parseNum (.str "8000000") = 8000000 := by
  rw [parseNum_str_eval "8000000" ⟨false, 8000000, 0, 0, 0⟩ (by decide) (by decide), sciVal_nat]
  norm_num

theorem pn_6000000 : parseNum (.str "6000000") = 6000000 := by
  rw [parseNum_str_eval "6000000" ⟨false, 6000000, 0, 0, 0⟩ (by decide) (by decide), sciVal_nat]
  norm_num

theorem pn_1000000 : parseNum (.str "1000000") = 1000000 := by
  rw [parseNum_str_eval "1000000" ⟨false, 1000000, 0, 0, 0⟩ (by decide) (by decide), sciVal_nat]
  norm_num

theorem pn_1200000 : parseNum (.str "1200000") = 1200000 := by
  rw [parseNum_str_eval "1200000" ⟨false, 1200000, 0, 0, 0⟩ (by decide) (by decide), sciVal_nat]
  norm_num

theorem pn_15000000 : parseNum (.str "15000000") = 15000000 := by
  rw [parseNum_str_eval "15000000" ⟨false, 15000000, 0, 0, 0⟩ (by decide) (by decide), sciVal_nat]
  norm_num

theorem pn_10000000 : parseNum (.str "10000000") = 10000000 := by
  rw [parseNum_str_eval "10000000" ⟨false, 10000000, 0, 0, 0⟩ (by decide) (by decide), sciVal_nat]
  norm_num

theorem pn_200000 : parseNum (.str "200000") = 200000 := by
  rw [parseNum_str_eval "200000" ⟨false, 200000, 0, 0, 0⟩ (by decide) (by decide), sciVal_nat]
  norm_num

theorem pn_99000000 : parseNum (.str "99000000") = 99000000 := by
  rw [parseNum_str_eval "99000000" ⟨false, 99000000, 0, 0, 0⟩ (by decide) (by decide), sciVal_nat]
  norm_num

theorem pn_neg1000000 : parseNum (.str "-1000000") = -1000000 := by
  rw [parseNum_str_eval "-1000000" ⟨true, 1000000, 0, 0, 0⟩ (by decide) (by decide), sciVal_negNat]
  norm_num

theorem pn_neg100 : parseNum (.str "-100") = -100 := by
  rw [parseNum_str_eval "-100" ⟨true, 100, 0, 0, 0⟩ (by decide) (by decide), sciVal_negNat]
  norm_num

theorem pn_space_comma : parseNum (.str "1 000,50") = 1000.5 := by
  rw [parseNum_str_eval "1 000,50" ⟨false, 1000, 50, 2, 0⟩ (by decide) (by decide)]
  norm_num [sciVal]

theorem pn_comma_decimal : parseNum (.str "1,5") = 1.5 := by
  rw [parseNum_str_eval "1,5" ⟨false, 1, 5, 1, 0⟩ (by decide) (by decide)]
  norm_num [sciVal]

theorem pn_abc : parseNum (.str "abc") = 0 :=
  parseNum_str_none "abc" (by decide)

theorem pn_two_commas : parseNum (.str "1,000,000") = 0 :=
  parseNum_str_none "1,000,000" (by decide)

theorem pn_nbsp : parseNum (.str "1 000 000") = 1000000 := by
  rw [parseNum_str_eval "1 000 000" ⟨false, 1000000, 0, 0, 0⟩ (by decide) (by decide),
    sciVal_nat]
  norm_num

theorem totals_sport (i : Inputs) :
    (totals i).sport = parseNum (.str i.revTrainings) + parseNum (.str i.revCamps) := rfl

theorem totals_taxable (i : Inputs) :
    (totals i).taxable = parseNum (.str i.revRoyalty) + parseNum (.str i.revGoods) := rfl

theorem totals_total (i : Inputs) :
    (totals i).total = (totals i).sport + (totals i).taxable := rfl

theorem isVatPayer_iff (i : Inputs) :
    isVatPayer i = true ↔
      parseNum (.str i.prevYearRevenue) > parseNum (.str i.vatThreshold) := by
  simp [isVatPayer]

theorem isVatPayer_eq_false_iff (i : Inputs) :
    isVatPayer i = false ↔
      ¬ parseNum (.str i.prevYearRevenue) > parseNum (.str i.vatThreshold) := by
  simp [isVatPayer]

theorem taxable_default : (totals defaultInputs).taxable = 7000000 := by
  have h : (totals defaultInputs).taxable =
      parseNum (.str "6000000") + parseNum (.str "1000000") := rfl
  rw [h, pn_6000000, pn_1000000]; norm_num

theorem sport_default : (totals defaultInputs).sport = 8000000 := by
  have h : (totals defaultInputs).sport = parseNum (.str "8000000") + parseNum (.str "0") := rfl
  rw [h, pn_8000000, pn_0]; norm_num

theorem total_default : (totals defaultInputs).total = 15000000 := by
  rw [totals_total, sport_default, taxable_default]; norm_num

theorem isVatPayer_default : isVatPayer defaultInputs = true := by
  rw [isVatPayer_iff]
  have h1 : parseNum (.str defaultInputs.prevYearRevenue) = 15000000 := pn_15000000
  have h2 : parseNum (.str defaultInputs.vatThreshold) = 10000000 := pn_10000000
  rw [h1, h2]; norm_num

theorem usn6_totalTax (i : Inputs) :
    (usn6 i).totalTax = parseNum (.str i.psnPatentCost) + (totals i).taxable * 0.06 +
      (if isVatPayer i then (totals i).taxable * VAT5 else 0) := rfl

theorem usn15_totalTax (i : Inputs) :
    (usn15 i).totalTax = parseNum (.str i.psnPatentCost) + usn15Base i * 0.15 +
      (if isVatPayer i then (totals i).taxable * VAT5 else 0) := rfl

theorem ausn8_totalTax (i : Inputs) : (ausn8 i).totalTax = (totals i).total * 0.08 := rfl

theorem ausn20_totalTax (i : Inputs) : (ausn20 i).totalTax = ausn20Base i * 0.20 := rfl

theorem usn15Base_eq (i : Inputs) :
    usn15Base i = max 0 ((totals i).taxable - parseNum (.str i.usnProfitExpenses)) := rfl

theorem ausn20Base_eq (i : Inputs) :
    ausn20Base i = max 0 ((totals i).total - parseNum (.str i.ausnProfitExpenses)) := rfl

theorem usn6_default : (usn6 defaultInputs).totalTax = 970000 := by
  rw [usn6_totalTax, taxable_default]
  have hp : parseNum (.str defaultInputs.psnPatentCost) = 200000 := pn_200000
  rw [hp]
  simp only [isVatPayer_default, if_true]
  norm_num [VAT5]

theorem usn15Base_default : usn15Base defaultInputs = 5800000 := by
  rw [usn15Base_eq, taxable_default]
  have he : parseNum (.str defaultInputs.usnProfitExpenses) = 1200000 := pn_1200000
  rw [he, show (7000000 : ℚ) - 1200000 = 5800000 by norm_num]
  exact max_eq_right (by norm_num)

theorem usn15_default : (usn15 defaultInputs).totalTax = 1420000 := by
  rw [usn15_totalTax, usn15Base_default, taxable_default]
  have hp : parseNum (.str defaultInputs.psnPatentCost) = 200000 := pn_200000
  rw [hp]
  simp only [isVatPayer_default, if_true]
  norm_num [VAT5]

theorem ausn8_default : (ausn8 defaultInputs).totalTax = 1200000 := by
  rw [ausn8_totalTax, total_default]; norm_num

theorem ausn20Base_default : ausn20Base defaultInputs = 13800000 := by
  rw [ausn20Base_eq, total_default]
  have he : parseNum (.str defaultInputs.ausnProfitExpenses) = 1200000 := pn_1200000
  rw [he, show (15000000 : ℚ) - 1200000 = 13800000 by norm_num]
  exact max_eq_right (by norm_num)

theorem ausn20_default : (ausn20 defaultInputs).totalTax = 2760000 := by
  rw [ausn20_totalTax, ausn20Base_default]; norm_num

theorem taxable_zero : (totals zeroInputs).taxable = 0 := by
  have h : (totals zeroInputs).taxable = parseNum (.str "0") + parseNum (.str "0") := rfl
  rw [h, pn_0]; norm_num

theorem sport_zero : (totals zeroInputs).sport = 0 := by
  have h : (totals zeroInputs).sport = parseNum (.str "0") + parseNum (.str "0") := rfl
  rw [h, pn_0]; norm_num

theorem total_zero : (totals zeroInputs).total = 0 := by
  rw [totals_total, sport_zero, taxable_zero]; norm_num

theorem isVatPayer_zero : isVatPayer zeroInputs = false := by
  rw [isVatPayer_eq_false_iff]
  have h1 : parseNum (.str zeroInputs.prevYearRevenue) = 0 := pn_0
  have h2 : parseNum (.str zeroInputs.vatThreshold) = 0 := pn_0
  rw [h1, h2]; norm_num

theorem usn6_zero : (usn6 zeroInputs).totalTax = 0 := by
  rw [usn6_totalTax, taxable_zero]
  have hp : parseNum (.str zeroInputs.psnPatentCost) = 0 := pn_0
  rw [hp]
  simp [isVatPayer_zero]

theorem usn15Base_zero : usn15Base zeroInputs = 0 := by
  rw [usn15Base_eq, taxable_zero]
  have he : parseNum (.str zeroInputs.usnProfitExpenses) = 0 := pn_0
  rw [he]; simp

theorem usn15_zero : (usn15 zeroInputs).totalTax = 0 := by
  rw [usn15_totalTax, usn15Base_zero, taxable_zero]
  have hp : parseNum (.str zeroInputs.psnPatentCost) = 0 := pn_0
  rw [hp]
  simp [isVatPayer_zero]

theorem ausn8_zero : (ausn8 zeroInputs).totalTax = 0 := by
  rw [ausn8_totalTax, total_zero]; norm_num

theorem ausn20Base_zero : ausn20Base zeroInputs = 0 := by
  rw [ausn20Base_eq, total_zero]
  have he : parseNum (.str zeroInputs.ausnProfitExpenses) = 0 := pn_0
  rw [he]; simp

theorem ausn20_zero : (ausn20 zeroInputs).totalTax = 0 := by
  rw [ausn20_totalTax, ausn20Base_zero]; norm_num

theorem best_eq_pick (i : Inputs) :
    best i = pickMin (pickMin (pickMin (usn6 i) (usn15 i)) (ausn8 i)) (ausn20 i) := rfl

theorem best_zero : best zeroInputs = ausn20 zeroInputs := by
  rw [best_eq_pick]
  simp [pickMin, usn6_zero, usn15_zero, ausn8_zero, ausn20_zero]

theorem mem_dropWhile_of_mem {α : Type} {p : α → Bool} {a : α} (hp : p a = false) :
    ∀ {l : List α}, a ∈ l → a ∈ l.dropWhile p := by
  intro l h
  induction l with
  | nil => simp at h
  | cons b t ih =>
    rw [List.dropWhile_cons]
    by_cases hb : p b = true
    · rw [if_pos hb]
      rcases List.mem_cons.mp h with rfl | ht
      · rw [hp] at hb; cases hb
      · exact ih ht
    · rw [if_neg hb]
      exact h

theorem not_all_digit_of_comma {l : List Char} (h : ',' ∈ l) :
    l.all Char.isDigit = false := by
  cases hb : l.all Char.isDigit
  · rfl
  · exact absurd (List.all_eq_true.mp hb ',' h) (by decide)

theorem parseExpPart_comma {l : List Char} (h : ',' ∈ l) : parseExpPart l = none := by
  unfold parseExpPart
  split
  · next body =>
    have hc : ',' ∈ body := by
      rcases List.mem_cons.mp h with h1 | h1
      · exact absurd h1 (by decide)
      · exact h1
    simp [not_all_digit_of_comma hc]
  · next body =>
    have hc : ',' ∈ body := by
      rcases List.mem_cons.mp h with h1 | h1
      · exact absurd h1 (by decide)
      · exact h1
    simp [not_all_digit_of_comma hc]
  · simp [not_all_digit_of_comma h]

theorem finishDec_comma (intPart fracPart : List Char) {rest : List Char} (h : ',' ∈ rest) :
    finishDec intPart fracPart rest = none := by
  unfold finishDec
  split
  · simp at h
  · next e expPart =>
    by_cases he : e = 'e' ∨ e = 'E'
    · rw [if_pos he]
      have hc : ',' ∈ expPart := by
        rcases List.mem_cons.mp h with h1 | h1
        · rcases he with rfl | rfl <;> exact absurd h1 (by decide)
        · exact h1
      rw [parseExpPart_comma hc]
    · rw [if_neg he]

theorem afterIntPart_comma (intPart : List Char) {r1 : List Char} (h : ',' ∈ r1) :
    afterIntPart intPart r1 = none := by
  unfold afterIntPart
  split
  · next r2 =>
    have hc : ',' ∈ r2 := by
      rcases List.mem_cons.mp h with h1 | h1
      · exact absurd h1 (by decide)
      · exact h1
    have hc3 : ',' ∈ r2.dropWhile Char.isDigit := mem_dropWhile_of_mem (by decide) hc
    split_ifs
    · rfl
    · exact finishDec_comma _ _ hc3
  · split_ifs
    · rfl
    · exact finishDec_comma _ _ h

theorem parseUnsignedParts_comma {l : List Char} (h : ',' ∈ l) :
    parseUnsignedParts l = none :=
  afterIntPart_comma _ (mem_dropWhile_of_mem (by decide) h)

theorem toNumberParts_comma {l : List Char} (h : ',' ∈ l) : toNumberParts l = none := by
  unfold toNumberParts
  split
  · simp at h
  · next body =>
    have hc : ',' ∈ body := by
      rcases List.mem_cons.mp h with h1 | h1
      · exact absurd h1 (by decide)
      · exact h1
    exact parseUnsignedParts_comma hc
  · next body =>
    have hc : ',' ∈ body := by
      rcases List.mem_cons.mp h with h1 | h1
      · exact absurd h1 (by decide)
      · exact h1
    rw [parseUnsignedParts_comma hc]
    rfl
  · exact parseUnsignedParts_comma h

theorem count_comma_filter (l : List Char) :
    (l.filter (fun c => !isWhitespaceChar c)).count ',' = l.count ',' :=
  List.count_filter (by decide)

theorem comma_mem_replaceFirstComma {l : List Char} (h : 2 ≤ l.count ',') :
    ',' ∈ replaceFirstComma l := by
  induction l with
  | nil => simp at h
  | cons c rest ih =>
    rw [replaceFirstComma]
    by_cases hc : c = ','
    · subst hc
      rw [if_pos rfl]
      rw [List.count_cons_self] at h
      exact List.mem_cons_of_mem _ (List.count_pos_iff.mp (by omega))
    · rw [if_neg hc]
      rw [List.count_cons_of_ne (fun he => hc he.symm)] at h
      exact List.mem_cons_of_mem _ (ih h)

theorem parseNum_two_commas (s : String) (h : 2 ≤ s.data.count ',') :
    parseNum (.str s) = 0 := by
  apply parseNum_str_none
  apply toNumberParts_comma
  unfold cleanse
  apply comma_mem_replaceFirstComma
  rw [count_comma_filter]
  exact h

theorem pickMin_le_left (a b : Scenario) : (pickMin a b).totalTax ≤ a.totalTax := by
  unfold pickMin
  split_ifs with h
  · exact le_refl _
  · exact le_of_not_lt h

theorem pickMin_le_right (a b : Scenario) : (pickMin a b).totalTax ≤ b.totalTax := by
  unfold pickMin
  split_ifs with h
  · exact le_of_lt h
  · exact le_refl _

theorem pickMin_cases (a b : Scenario) :
    (pickMin a b = a ∧ a.totalTax < b.totalTax) ∨
      (pickMin a b = b ∧ b.totalTax ≤ a.totalTax) := by
  unfold pickMin
  split_ifs with h
  · exact Or.inl ⟨rfl, h⟩
  · exact Or.inr ⟨rfl, le_of_not_lt h⟩

theorem taxable_excess : (totals excessInputs).taxable = 7000000 := by
  have h : (totals excessInputs).taxable =
      parseNum (.str "6000000") + parseNum (.str "1000000") := rfl
  rw [h, pn_6000000, pn_1000000]; norm_num

theorem sport_excess : (totals excessInputs).sport = 8000000 := by
  have h : (totals excessInputs).sport = parseNum (.str "8000000") + parseNum (.str "0") := rfl
  rw [h, pn_8000000, pn_0]; norm_num

theorem total_excess : (totals excessInputs).total = 15000000 := by
  rw [totals_total, sport_excess, taxable_excess]; norm_num

theorem taxable_negRoyalty : (totals negRoyaltyInputs).taxable = -1000000 := by
  have h : (totals negRoyaltyInputs).taxable =
      parseNum (.str "-1000000") + parseNum (.str "0") := rfl
  rw [h, pn_neg1000000, pn_0]; norm_num

theorem isVatPayer_negRoyalty : isVatPayer negRoyaltyInputs = false := by
  rw [isVatPayer_eq_false_iff]
  have h1 : parseNum (.str negRoyaltyInputs.prevYearRevenue) = 0 := pn_0
  have h2 : parseNum (.str negRoyaltyInputs.vatThreshold) = 0 := pn_0
  rw [h1, h2]; norm_num

theorem usn6_negRoyalty : (usn6 negRoyaltyInputs).totalTax = -60000 := by
  rw [usn6_totalTax, taxable_negRoyalty]
  have hp : parseNum (.str negRoyaltyInputs.psnPatentCost) = 0 := pn_0
  rw [hp]
  simp only [isVatPayer_negRoyalty, Bool.false_eq_true, if_false]
  norm_num

/-- Claim C1 (amended): the best scenario is the one with minimum totalTax
among usn6, usn15, ausn8, ausn20, selected by pairwise reduction over the
exact (unrounded) totalTax values; on exact ties the LAST-encountered
scenario in that order wins, because the reduction keeps its accumulator
only on strict inequality.  Rounding to the nearest integer happens only
in the chart data, never in the totals used for the comparison.  The
staircase disjunction states the last-wins property: best is ausn20, or it
beats ausn20 strictly and is ausn8, or it beats both strictly and is
usn15, or it beats all three strictly and is usn6. -/
theorem best_min_exact_tie_last (i : Inputs) :
    best i ∈ scenarios i ∧
    (∀ s ∈ scenarios i, (best i).totalTax ≤ s.totalTax) ∧
    (best i = ausn20 i ∨
      ((best i).totalTax < (ausn20 i).totalTax ∧
        (best i = ausn8 i ∨
          ((best i).totalTax < (ausn8 i).totalTax ∧
            (best i = usn15 i ∨
              ((best i).totalTax < (usn15 i).totalTax ∧ best i = usn6 i)))))) ∧
    chartData i = (scenarios i).map (fun s => (s.label, jsRound s.totalTax)) := by
  have hb := best_eq_pick i
  refine ⟨?_, ?_, ?_, rfl⟩
  · rw [hb]
    rcases pickMin_cases (pickMin (pickMin (usn6 i) (usn15 i)) (ausn8 i)) (ausn20 i) with
      ⟨h3, -⟩ | ⟨h3, -⟩
    · rw [h3]
      rcases pickMin_cases (pickMin (usn6 i) (usn15 i)) (ausn8 i) with ⟨h2, -⟩ | ⟨h2, -⟩
      · rw [h2]
        rcases pickMin_cases (usn6 i) (usn15 i) with ⟨h1, -⟩ | ⟨h1, -⟩
        · rw [h1]; simp [scenarios]
        · rw [h1]; simp [scenarios]
      · rw [h2]; simp [scenarios]
    · rw [h3]; simp [scenarios]
  · intro s hs
    have l4 : (best i).totalTax ≤ (ausn20 i).totalTax := by
      rw [hb]; exact pickMin_le_right _ _
    have lQ : (best i).totalTax ≤
        (pickMin (pickMin (usn6 i) (usn15 i)) (ausn8 i)).totalTax := by
      rw [hb]; exact pickMin_le_left _ _
    have l3 : (best i).totalTax ≤ (ausn8 i).totalTax :=
      le_trans lQ (pickMin_le_right _ _)
    have lP : (best i).totalTax ≤ (pickMin (usn6 i) (usn15 i)).totalTax :=
      le_trans lQ (pickMin_le_left _ _)
    have l1 : (best i).totalTax ≤ (usn6 i).totalTax := le_trans lP (pickMin_le_left _ _)
    have l2 : (best i).totalTax ≤ (usn15 i).totalTax := le_trans lP (pickMin_le_right _ _)
    simp only [scenarios, List.mem_cons, List.not_mem_nil, or_false] at hs
    rcases hs with rfl | rfl | rfl | rfl <;> assumption
  · rcases pickMin_cases (pickMin (pickMin (usn6 i) (usn15 i)) (ausn8 i)) (ausn20 i) with
      ⟨h3, c3⟩ | ⟨h3, -⟩
    · refine Or.inr ⟨by rw [hb, h3]; exact c3, ?_⟩
      rcases pickMin_cases (pickMin (usn6 i) (usn15 i)) (ausn8 i) with ⟨h2, c2⟩ | ⟨h2, -⟩
      · refine Or.inr ⟨by rw [hb, h3, h2]; exact c2, ?_⟩
        rcases pickMin_cases (usn6 i) (usn15 i) with ⟨h1, c1⟩ | ⟨h1, -⟩
        · exact Or.inr ⟨by rw [hb, h3, h2, h1]; exact c1, by rw [hb, h3, h2, h1]⟩
        · exact Or.inl (by rw [hb, h3, h2, h1])
      · exact Or.inl (by rw [hb, h3, h2])
    · exact Or.inl (by rw [hb, h3])

/-- Witness for claim C1: the amended theorem applied at the default
inputs, with the membership hypothesis discharged concretely. -/
theorem best_min_exact_tie_last_witness :
    (best defaultInputs).totalTax ≤ (ausn8 defaultInputs).totalTax :=
  (best_min_exact_tie_last defaultInputs).2.1 (ausn8 defaultInputs) (by simp [scenarios])

/-- Counterexample for claim C1 as stated: with every input equal to the
string 0 all four scenarios have totalTax exactly 0, an exact four-way
tie, yet the selected best scenario is ausn20 — the last-encountered
minimum — not the first-encountered usn6 the claim requires. -/
theorem best_tie_first_counterexample :
    (usn6 zeroInputs).totalTax = 0 ∧ (usn15 zeroInputs).totalTax = 0 ∧
    (ausn8 zeroInputs).totalTax = 0 ∧ (ausn20 zeroInputs).totalTax = 0 ∧
    (usn6 zeroInputs).key = "usn6" ∧ (best zeroInputs).key = "ausn20" ∧
    best zeroInputs ≠ usn6 zeroInputs := by
  refine ⟨usn6_zero, usn15_zero, ausn8_zero, ausn20_zero, rfl, ?_, ?_⟩
  · rw [best_zero]; rfl
  · rw [best_zero]
    intro h
    exact absurd (congrArg Scenario.key h) (by decide)

/-- Claim C2: scenario usn6 has totalTax equal to the parsed patent cost
plus 6 percent of taxable revenue plus 5 percent VAT on taxable revenue
exactly when the VAT flag holds; at the default inputs (taxable 7000000,
patent 200000, VAT payer) the total is 970000. -/
theorem usn6_spec (i : Inputs) :
    (usn6 i).totalTax = parseNum (.str i.psnPatentCost) + (totals i).taxable * 0.06 +
        (if isVatPayer i then (totals i).taxable * 0.05 else 0) ∧
    (usn6 defaultInputs).totalTax = 970000 :=
  ⟨usn6_totalTax i, usn6_default⟩

/-- Claim C3: scenario usn15 has totalTax equal to the parsed patent cost
plus 15 percent of the zero-floored profit base (taxable minus parsed USN
expenses) plus 5 percent VAT on taxable revenue exactly when the VAT flag
holds; at the default inputs the total is 1420000. -/
theorem usn15_spec (i : Inputs) :
    (usn15 i).totalTax = parseNum (.str i.psnPatentCost) +
        max 0 ((totals i).taxable - parseNum (.str i.usnProfitExpenses)) * 0.15 +
        (if isVatPayer i then (totals i).taxable * 0.05 else 0) ∧
    (usn15 defaultInputs).totalTax = 1420000 :=
  ⟨usn15_totalTax i, usn15_default⟩

/-- Claim C4: scenario ausn8 has totalTax equal to 8 percent of total
revenue and scenario ausn20 to 20 percent of the zero-floored total minus
parsed AUSN expenses; the component breakdowns of both AUSN scenarios are
exactly one line each — no VAT line and no patent line — irrespective of
the VAT flag.  At the default inputs ausn20 totals 2760000. -/
theorem ausn_no_vat_no_patent_spec (i : Inputs) :
    (ausn8 i).totalTax = (totals i).total * 0.08 ∧
    (ausn20 i).totalTax =
      max 0 ((totals i).total - parseNum (.str i.ausnProfitExpenses)) * 0.20 ∧
    (ausn8 i).components = [("АУСН 8%", (totals i).total * 0.08)] ∧
    (ausn20 i).components =
      [("АУСН 20%", max 0 ((totals i).total - parseNum (.str i.ausnProfitExpenses)) * 0.20)] ∧
    (ausn20 defaultInputs).totalTax = 2760000 :=
  ⟨rfl, rfl, rfl, rfl, ausn20_default⟩

/-- Claim C5: the derived totals satisfy sport equals parsed trainings
plus parsed camps, taxable equals parsed royalty plus parsed goods, and
total equals sport plus taxable; at the default inputs these are 8000000,
7000000 and 15000000. -/
theorem totals_spec (i : Inputs) :
    (totals i).sport = parseNum (.str i.revTrainings) + parseNum (.str i.revCamps) ∧
    (totals i).taxable = parseNum (.str i.revRoyalty) + parseNum (.str i.revGoods) ∧
    (totals i).total = (totals i).sport + (totals i).taxable ∧
    (totals defaultInputs).sport = 8000000 ∧
    (totals defaultInputs).taxable = 7000000 ∧
    (totals defaultInputs).total = 15000000 :=
  ⟨rfl, rfl, rfl, sport_default, taxable_default, total_default⟩

/-- Claim C6: the VAT flag holds exactly when the parsed previous-year
revenue is strictly greater than the parsed threshold; on equal parsed
values the flag is false. -/
theorem isVatPayer_spec (i : Inputs) :
    (isVatPayer i = true ↔
      parseNum (.str i.prevYearRevenue) > parseNum (.str i.vatThreshold)) ∧
    (parseNum (.str i.prevYearRevenue) = parseNum (.str i.vatThreshold) →
      isVatPayer i = false) := by
  refine ⟨isVatPayer_iff i, fun h => ?_⟩
  rw [isVatPayer_eq_false_iff, h]
  exact lt_irrefl _

/-- Witness for claim C6: at inputs whose previous-year revenue equals the
threshold (both 10000000) the flag is false. -/
theorem isVatPayer_spec_witness : isVatPayer eqThresholdInputs = false :=
  (isVatPayer_spec eqThresholdInputs).2 rfl

/-- Claim C7: parseNum is total — every input yields an actual rational,
never a NaN, since conversion failure is replaced by 0 — and it maps null,
undefined and the empty string to 0; it strips whitespace including
no-break spaces, turns a comma into a decimal point and degrades invalid
input to 0: the string 1 000,50 gives 1000.5, the string 1,5 gives 1.5,
the string abc gives 0, and 1 000 000 written with no-break spaces gives
1000000. -/
theorem parseNum_total_spec :
    (∀ v : JSInput, ∃ q : ℚ, parseNum v = q) ∧
    parseNum .null = 0 ∧ parseNum .undef = 0 ∧ parseNum (.str "") = 0 ∧
    parseNum (.str "1 000,50") = 1000.5 ∧
    parseNum (.str "1,5") = 1.5 ∧
    parseNum (.str "abc") = 0 ∧
    parseNum (.str "1 000 000") = 1000000 :=
  ⟨fun v => ⟨parseNum v, rfl⟩, rfl, rfl, by simp [parseNum],
    pn_space_comma, pn_comma_decimal, pn_abc, pn_nbsp⟩

/-- Claim C8: both profit bases are floored at zero, so they are never
negative, the profit-based tax amounts are never negative, and whenever
the parsed expenses strictly exceed the corresponding revenue aggregate
the base is exactly 0. -/
theorem profit_bases_floor_spec (i : Inputs) :
    0 ≤ usn15Base i ∧ 0 ≤ ausn20Base i ∧
    0 ≤ usn15Base i * 0.15 ∧ 0 ≤ (ausn20 i).totalTax ∧
    ((totals i).taxable < parseNum (.str i.usnProfitExpenses) → usn15Base i = 0) ∧
    ((totals i).total < parseNum (.str i.ausnProfitExpenses) → ausn20Base i = 0) := by
  have h1 : 0 ≤ usn15Base i := le_max_left _ _
  have h2 : 0 ≤ ausn20Base i := le_max_left _ _
  refine ⟨h1, h2, mul_nonneg h1 (by norm_num), ?_, fun h => ?_, fun h => ?_⟩
  · rw [ausn20_totalTax]
    exact mul_nonneg h2 (by norm_num)
  · rw [usn15Base_eq]
    exact max_eq_left (by linarith)
  · rw [ausn20Base_eq]
    exact max_eq_left (by linarith)

/-- Witness for claim C8: with both expense fields at 99000000, above
every revenue aggregate of the default inputs, both profit bases evaluate
to exactly 0. -/
theorem profit_bases_floor_spec_witness :
    usn15Base excessInputs = 0 ∧ ausn20Base excessInputs = 0 :=
  ⟨(profit_bases_floor_spec excessInputs).2.2.2.2.1 (by
      rw [taxable_excess,
        show parseNum (.str excessInputs.usnProfitExpenses) = 99000000 from pn_99000000]
      norm_num),
    (profit_bases_floor_spec excessInputs).2.2.2.2.2 (by
      rw [total_excess,
        show parseNum (.str excessInputs.ausnProfitExpenses) = 99000000 from pn_99000000]
      norm_num)⟩

/-- Claim C9: parseNum does not clamp negatives — whenever the cleaned
string converts to a negative rational, parseNum returns it unchanged —
so the string -100 parses to -100, and a negative royalty input of
-1000000 with all other fields 0 drives the usn6 totalTax to the negative
value -60000. -/
theorem parseNum_no_negative_clamp :
    (∀ (s : String) (q : ℚ), toNumber (cleanse s.data) = some q → q < 0 →
      parseNum (.str s) = q) ∧
    parseNum (.str "-100") = -100 ∧
    (usn6 negRoyaltyInputs).totalTax = -60000 ∧
    (usn6 negRoyaltyInputs).totalTax < 0 := by
  refine ⟨fun s q h hq => ?_, pn_neg100, usn6_negRoyalty, by rw [usn6_negRoyalty]; norm_num⟩
  by_cases hs : s = ""
  · subst hs
    have h0 : toNumber (cleanse ("" : String).data) = some (sciVal ⟨false, 0, 0, 0, 0⟩) := rfl
    rw [h0] at h
    have hz : sciVal ⟨false, 0, 0, 0, 0⟩ = 0 := by norm_num [sciVal]
    rw [← Option.some.inj h, hz] at hq
    exact absurd hq (lt_irrefl 0)
  · simp [parseNum, hs, h]

/-- Witness for claim C9: the no-clamping statement applied to the
concrete string -100. -/
theorem parseNum_no_negative_clamp_witness : parseNum (.str "-100") = -100 :=
  parseNum_no_negative_clamp.1 "-100" (-100)
    (by
      have h : toNumberParts (cleanse ("-100" : String).data) = some ⟨true, 100, 0, 0, 0⟩ := by
        decide
      unfold toNumber
      rw [h]
      norm_num [sciVal_negNat])
    (by norm_num)

/-- Claim C10: parseNum replaces only the first comma while stripping all
whitespace, so every string with two or more commas fails conversion and
parses to 0 — in particular the thousands-separated 1,000,000 — while a
string with internal spaces and a single comma such as 1 000,50 still
parses, to 1000.5. -/
theorem parseNum_first_comma_spec :
    (∀ s : String, 2 ≤ s.data.count ',' → parseNum (.str s) = 0) ∧
    parseNum (.str "1,000,000") = 0 ∧
    parseNum (.str "1 000,50") = 1000.5 :=
  ⟨parseNum_two_commas, pn_two_commas, pn_space_comma⟩

/-- Witness for claim C10: the two-comma statement applied to the concrete
string 1,000,000. -/
theorem parseNum_first_comma_spec_witness : parseNum (.str "1,000,000") = 0 :=
  parseNum_first_comma_spec.1 "1,000,000" (by decide)

end TaxPlanner
